import Mathlib

/-!
Shallow embedding of the transaction-graph traversal and session-state
engine of `bitcrawler.py`: the visited-transaction graph, the
backward/forward navigation steps, the transaction-id format check, and
the dump/load session store.  The remote ledger service is modelled as an
explicit oracle passed to each operation; the in-memory `visited_chain`
dictionary is modelled as an insertion-ordered association list with
Python-dict update semantics.
-/

namespace Bitcrawler

/-- Confirmation status of a transaction (the `status` object: the code
reads `confirmed` and `block_time`). -/
structure TxStatus where
  confirmed : Bool
  block_time : Option Nat
deriving DecidableEq

/-- One input of a transaction (the code reads `txid` — absent means a
coinbase input — and `vout`). -/
structure TxInput where
  txid : Option String
  vout : Option Nat
deriving DecidableEq

/-- One output of a transaction (the code reads `value`, defaulting to 0,
and `scriptpubkey_address`). -/
structure TxOutput where
  value : Nat
  scriptpubkey_address : Option String
deriving DecidableEq

/-- A transaction record, restricted to the fields the program reads. -/
structure TxData where
  txid : String
  status : TxStatus
  vin : List TxInput
  vout : List TxOutput
deriving DecidableEq

/-- One entry of `visited_chain`: the record, the id of the transaction
that led here (stored under the key `from`), and the provenance label
(stored under the key `path`). -/
structure VisitedEntry where
  data : TxData
  source_txid : Option String
  path : Option String
deriving DecidableEq

/-- The in-memory `visited_chain`: an insertion-ordered mapping from
transaction id to entry, modelled as an association list. -/
abbrev Chain := List (String × VisitedEntry)

/-- Python dict assignment `m[k] = v`: overwrite the entry for `k` in
place if present, otherwise append at the end. -/
def dictInsert : Chain → String → VisitedEntry → Chain
  | [], k, v => [(k, v)]
  | (k2, v2) :: rest, k, v =>
      if k2 = k then (k, v) :: rest else (k2, v2) :: dictInsert rest k v

/-- Python dict lookup `m.get(k)`. -/
def chainGet : Chain → String → Option VisitedEntry
  | [], _ => none
  | (k2, v) :: rest, k => if k2 = k then some v else chainGet rest k

/-- Number of entries stored under key `k`. -/
def keyCount (g : Chain) (k : String) : Nat :=
  (g.filter (fun p => p.1 == k)).length

/-- `add_to_chain(tx_data, path, source_txid)`:
`visited_chain[tx_data["txid"]] = {"data": tx_data, "from": source_txid, "path": path}`. -/
def add_to_chain (chain : Chain) (tx_data : TxData)
    (path : Option String) (source_txid : Option String) : Chain :=
  dictInsert chain tx_data.txid
    { data := tx_data, source_txid := source_txid, path := path }

/-- One element of the `outspends` response: the unread `spent` flag and
the optional spending transaction id read by `chosen_outspend.get("txid")`. -/
structure Outspend where
  spent : Bool
  txid : Option String
deriving DecidableEq

/-- The remote ledger service, as the oracle the navigation steps consult:
`tx` models `fetch_transaction_data` (its argument may be Python `None`),
`outspends` models `fetch_transaction_outspends`; `none` results model
failed fetches. -/
structure Ledger where
  tx : Option String → Option TxData
  outspends : String → Option (List (Option Outspend))

/-- Outcome of one navigation step.  `indexError` models the uncaught
Python `IndexError` raised by `outspends[idx]` when the outspend list is
shorter than the output list. -/
inductive NavOutcome where
  | invalidIndex
  | noInputs
  | noOutputs
  | coinbase
  | unspent
  | fetchFailed
  | followed (tx : TxData)
  | indexError
deriving DecidableEq

/-- Result of one navigation step: the outcome, the resulting
`visited_chain`, and the arguments of every `fetch_transaction_data`
call made during the step (in order). -/
structure NavResult where
  outcome : NavOutcome
  chain : Chain
  txFetches : List (Option String)
deriving DecidableEq

/-- `follow_input_by_index(tx_data, idx)` as a pure step on the chain. -/
def follow_input_by_index (L : Ledger) (chain : Chain)
    (tx_data : TxData) (idx : Int) : NavResult :=
  let vin := tx_data.vin
  if idx < 0 ∨ (vin.length : Int) ≤ idx then
    { outcome := .invalidIndex, chain := chain, txFetches := [] }
  else if vin.isEmpty then
    { outcome := .noInputs, chain := chain, txFetches := [] }
  else
    match vin.get? idx.toNat with
    | none => { outcome := .indexError, chain := chain, txFetches := [] }
    | some inp_chosen =>
      match inp_chosen.txid with
      | none => { outcome := .coinbase, chain := chain, txFetches := [] }
      | some prev_txid =>
        match L.tx (some prev_txid) with
        | none =>
            { outcome := .fetchFailed, chain := chain,
              txFetches := [some prev_txid] }
        | some prev_tx_data =>
            { outcome := .followed prev_tx_data,
              chain := add_to_chain chain prev_tx_data
                (some ("followed input " ++ toString (idx + 1) ++ " of " ++ tx_data.txid))
                (some tx_data.txid),
              txFetches := [some prev_txid] }

/-- `follow_output_by_index(tx_data, idx)` as a pure step on the chain. -/
def follow_output_by_index (L : Ledger) (chain : Chain)
    (tx_data : TxData) (idx : Int) : NavResult :=
  let vout := tx_data.vout
  if idx < 0 ∨ (vout.length : Int) ≤ idx then
    { outcome := .invalidIndex, chain := chain, txFetches := [] }
  else if vout.isEmpty then
    { outcome := .noOutputs, chain := chain, txFetches := [] }
  else
    match L.outspends tx_data.txid with
    | none => { outcome := .fetchFailed, chain := chain, txFetches := [] }
    | some outspends =>
      match outspends.get? idx.toNat with
      | none => { outcome := .indexError, chain := chain, txFetches := [] }
      | some chosen_outspend =>
        match chosen_outspend with
        | none => { outcome := .unspent, chain := chain, txFetches := [] }
        | some o =>
          match L.tx o.txid with
          | none =>
              { outcome := .fetchFailed, chain := chain, txFetches := [o.txid] }
          | some next_tx_data =>
              { outcome := .followed next_tx_data,
                chain := add_to_chain chain next_tx_data
                  (some ("followed output " ++ toString (idx + 1) ++ " of " ++ tx_data.txid))
                  (some tx_data.txid),
                txFetches := [o.txid] }

/-- Membership of a character in the regex class `[0-9a-fA-F]`. -/
def isHexChar (c : Char) : Bool :=
  ('0' ≤ c && c ≤ '9') || ('a' ≤ c && c ≤ 'f') || ('A' ≤ c && c ≤ 'F')

/-- `is_transaction_id`: `re.match(r"^[0-9a-fA-F]{64}$", s)`.  Python's
`$` (without MULTILINE) matches at the end of the string or just before a
newline at the end of the string, so the pattern accepts exactly the
64-hex-character strings and the 65-character strings made of 64 hex
characters followed by a newline. -/
def is_transaction_id (s : String) : Bool :=
  (s.data.length == 64 && s.data.all isHexChar) ||
  (s.data.length == 65 && (s.data.take 64).all isHexChar
    && s.data.getLast? == some (Char.ofNat 10))

/-- Outcome of `handle_transaction_input`. -/
inductive QueryOutcome where
  | invalidFormat
  | notFound
  | explored (tx : TxData)
deriving DecidableEq

/-- Result of `handle_transaction_input`: outcome, resulting chain, and
the arguments of every `fetch_transaction_data` call made. -/
structure QueryResult where
  outcome : QueryOutcome
  chain : Chain
  txFetches : List (Option String)
deriving DecidableEq

/-- `handle_transaction_input(txid)` as a pure step on the chain. -/
def handle_transaction_input (L : Ledger) (chain : Chain) (txid : String) :
    QueryResult :=
  if is_transaction_id txid then
    match L.tx (some txid) with
    | none => { outcome := .notFound, chain := chain, txFetches := [some txid] }
    | some tx_data =>
        { outcome := .explored tx_data,
          chain := add_to_chain chain tx_data (some "initial query") none,
          txFetches := [some txid] }
  else
    { outcome := .invalidFormat, chain := chain, txFetches := [] }

/-- JSON values, the durable representation written by `json.dump` and
read back by `json.load`; the textual (de)serialization itself is the
standard library's, an external collaborator. -/
inductive Json where
  | null
  | bool (b : Bool)
  | num (n : Int)
  | str (s : String)
  | arr (xs : List Json)
  | obj (kvs : List (String × Json))

/-- Lookup of a key in a JSON object's field list (Python `d.get(k)`). -/
def lookupKey : List (String × Json) → String → Option Json
  | [], _ => none
  | (k2, v) :: rest, k => if k2 = k then some v else lookupKey rest k

/-- Python `j.get(k)` on a parsed JSON value: a value for objects carrying
the key, `none` otherwise. -/
def jget (j : Json) (k : String) : Option Json :=
  match j with
  | .obj kvs => lookupKey kvs k
  | _ => none

/-- JSON shape of an optional string stored under an always-present key
(the `from` and `path` fields written by `add_to_chain`). -/
def encodeOptStr : Option String → Json
  | none => .null
  | some s => .str s

/-- JSON shape of a `status` object as returned by the ledger service:
`block_time` is present only when known. -/
def encodeStatus (st : TxStatus) : Json :=
  .obj (("confirmed", Json.bool st.confirmed) ::
    (match st.block_time with
     | none => []
     | some t => [("block_time", Json.num t)]))

/-- JSON shape of one input: `txid` and `vout` are present only when the
input is not a coinbase input. -/
def encodeInput (i : TxInput) : Json :=
  .obj ((match i.txid with
         | none => []
         | some t => [("txid", Json.str t)]) ++
        (match i.vout with
         | none => []
         | some v => [("vout", Json.num v)]))

/-- JSON shape of one output. -/
def encodeOutput (o : TxOutput) : Json :=
  .obj (("value", Json.num o.value) ::
    (match o.scriptpubkey_address with
     | none => []
     | some a => [("scriptpubkey_address", Json.str a)]))

/-- JSON shape of a transaction record. -/
def encodeTx (d : TxData) : Json :=
  .obj [("txid", Json.str d.txid),
        ("status", encodeStatus d.status),
        ("vin", Json.arr (d.vin.map encodeInput)),
        ("vout", Json.arr (d.vout.map encodeOutput))]

/-- JSON shape of one `visited_chain` entry as written by `add_to_chain`:
`{"data": ..., "from": ..., "path": ...}`. -/
def encodeEntry (e : VisitedEntry) : Json :=
  .obj [("data", encodeTx e.data),
        ("from", encodeOptStr e.source_txid),
        ("path", encodeOptStr e.path)]

/-- `dump_chain()`: the JSON value `json.dump` serializes, the whole
`visited_chain` dictionary in insertion order. -/
def dump_chain (g : Chain) : Json :=
  .obj (g.map (fun p => (p.1, encodeEntry p.2)))

/-- Reading a `status` object back, mirroring
`status.get("confirmed", False)` and `status.get("block_time", None)`. -/
def decodeStatus : Json → Option TxStatus
  | .obj kvs => some
      { confirmed :=
          (match lookupKey kvs "confirmed" with
           | some (.bool b) => b
           | _ => false),
        block_time :=
          (match lookupKey kvs "block_time" with
           | some (.num n) => if n < 0 then none else some n.toNat
           | _ => none) }
  | _ => none

/-- Reading one input back, mirroring `inp.get("txid", None)` and
`inp.get("vout", "N/A")`. -/
def decodeInput : Json → Option TxInput
  | .obj kvs => some
      { txid :=
          (match lookupKey kvs "txid" with
           | some (.str s) => some s
           | _ => none),
        vout :=
          (match lookupKey kvs "vout" with
           | some (.num n) => if n < 0 then none else some n.toNat
           | _ => none) }
  | _ => none

/-- Reading one output back, mirroring `out.get("value", 0)` and
`out.get("scriptpubkey_address", "N/A")`. -/
def decodeOutput : Json → Option TxOutput
  | .obj kvs => some
      { value :=
          (match lookupKey kvs "value" with
           | some (.num n) => if n < 0 then 0 else n.toNat
           | _ => 0),
        scriptpubkey_address :=
          (match lookupKey kvs "scriptpubkey_address" with
           | some (.str s) => some s
           | _ => none) }
  | _ => none

/-- Reading back a list of inputs element-wise. -/
def decodeInputs : List Json → Option (List TxInput)
  | [] => some []
  | j :: rest =>
    match decodeInput j, decodeInputs rest with
    | some i, some r => some (i :: r)
    | _, _ => none

/-- Reading back a list of outputs element-wise. -/
def decodeOutputs : List Json → Option (List TxOutput)
  | [] => some []
  | j :: rest =>
    match decodeOutput j, decodeOutputs rest with
    | some o, some r => some (o :: r)
    | _, _ => none

/-- Reading a transaction record back, mirroring the field accesses of
`display_transaction_info` and the navigation steps (`get("status", {})`,
`get("vin", [])`, `get("vout", [])`). -/
def decodeTx : Json → Option TxData
  | .obj kvs => do
    let t ← (match lookupKey kvs "txid" with
             | some (.str t) => some t
             | _ => none)
    let st ← (match lookupKey kvs "status" with
              | some sj => decodeStatus sj
              | none => some { confirmed := false, block_time := none })
    let vin ← (match lookupKey kvs "vin" with
               | some (.arr l) => decodeInputs l
               | none => some []
               | some _ => none)
    let vout ← (match lookupKey kvs "vout" with
                | some (.arr l) => decodeOutputs l
                | none => some []
                | some _ => none)
    some { txid := t, status := st, vin := vin, vout := vout }
  | _ => none

/-- Reading one `visited_chain` entry back, mirroring `entry.get("data")`,
`entry.get("from")` and `entry.get("path")`. -/
def decodeEntry : Json → Option VisitedEntry
  | .obj kvs =>
    match lookupKey kvs "data" with
    | some jd => (decodeTx jd).map (fun d =>
        { data := d,
          source_txid :=
            (match lookupKey kvs "from" with
             | some (.str s) => some s
             | _ => none),
          path :=
            (match lookupKey kvs "path" with
             | some (.str s) => some s
             | _ => none) })
    | none => none
  | _ => none

/-- Reading a whole persisted entry list back, in persisted order. -/
def decodeEntries : List (String × Json) → Option Chain
  | [] => some []
  | (k, j) :: rest =>
    match decodeEntry j, decodeEntries rest with
    | some e, some r => some ((k, e) :: r)
    | _, _ => none

/-- Reading a persisted graph back as the typed chain. -/
def decodeChain : Json → Option Chain
  | .obj kvs => decodeEntries kvs
  | _ => none

/-- Outcome of `load_chain`. -/
inductive LoadOutcome where
  | ok
  | notFound
  | decodeFailed
deriving DecidableEq

/-- `load_chain(filename)`.  The file system maps a name to `none`
(missing file, `FileNotFoundError`), `some none` (content that is not
valid JSON, `json.JSONDecodeError`) or `some (some j)` (content parsing
to `j`).  The global `visited_chain` is replaced wholesale only on
success; on either failure the handler only logs, so the current value
`cur` survives unchanged. -/
def load_chain (fs : String → Option (Option Json)) (cur : Json)
    (filename : String) : LoadOutcome × Json :=
  match fs filename with
  | none => (.notFound, cur)
  | some none => (.decodeFailed, cur)
  | some (some loaded_data) => (.ok, loaded_data)

/-- The per-entry listing printed after a successful load:
`(tid, visited_chain[tid].get("from"), visited_chain[tid].get("path"))`
for each key in order, the raw JSON values displayed as-is. -/
def chain_listing : Json → Option (List (String × Option Json × Option Json))
  | .obj kvs => some (kvs.map (fun p => (p.1, jget p.2 "from", jget p.2 "path")))
  | _ => none

/-- The 64-character transaction id `"a" * 64` of the specification's
walkthrough scenario. -/
def a64 : String := String.mk (List.replicate 64 'a')

/-- The 64-character transaction id `"b" * 64`. -/
def b64 : String := String.mk (List.replicate 64 'b')

/-- The 64-character transaction id `"c" * 64`. -/
def c64 : String := String.mk (List.replicate 64 'c')

/-- The scenario transaction: one coinbase input and two outputs. -/
def tx_a : TxData :=
  { txid := a64,
    status := { confirmed := true, block_time := some 1700000000 },
    vin := [{ txid := none, vout := none }],
    vout := [{ value := 500000, scriptpubkey_address := some "addrX" },
             { value := 499000, scriptpubkey_address := some "addrY" }] }

/-- A second concrete transaction, used as a fetched previous/spending
transaction. -/
def tx_b : TxData :=
  { txid := b64,
    status := { confirmed := true, block_time := some 1600000000 },
    vin := [],
    vout := [{ value := 1000000, scriptpubkey_address := some "addrZ" }] }

/-- A transaction whose first input references `tx_b`. -/
def tx_c : TxData :=
  { txid := c64,
    status := { confirmed := false, block_time := none },
    vin := [{ txid := some b64, vout := some 0 }],
    vout := [{ value := 42, scriptpubkey_address := none }] }

/-- A variant of `tx_b` with the same id but different content. -/
def tx_b2 : TxData :=
  { txid := b64,
    status := { confirmed := false, block_time := none },
    vin := [],
    vout := [] }

/-- A transaction with an empty input list. -/
def tx_noinputs : TxData :=
  { txid := String.mk (List.replicate 64 'd'),
    status := { confirmed := true, block_time := some 1500000000 },
    vin := [],
    vout := [{ value := 7, scriptpubkey_address := none }] }

/-- A ledger on which every fetch fails. -/
def nullLedger : Ledger :=
  { tx := fun _ => none, outspends := fun _ => none }

/-- A ledger whose outspend list for `tx_a` holds a single null entry. -/
def ledgerNullOutspend : Ledger :=
  { tx := fun _ => none,
    outspends := fun t => if t = a64 then some [none] else none }

/-- A ledger whose outspend list for `tx_a` holds a single non-null entry
reporting the output unspent (`spent = false`, no spending id), and no
entry at index 1 although `tx_a` has two outputs. -/
def ledgerUnspentObj : Ledger :=
  { tx := fun _ => none,
    outspends := fun t => if t = a64 then some [some { spent := false, txid := none }] else none }

/-- A ledger that resolves the id `b64` to `tx_b`. -/
def ledgerPrev : Ledger :=
  { tx := fun t => if t = some b64 then some tx_b else none,
    outspends := fun _ => none }

/-- A two-entry chain as built by an initial query followed by one
output navigation. -/
def chainW : Chain :=
  [(a64, { data := tx_a, source_txid := none, path := some "initial query" }),
   (b64, { data := tx_b, source_txid := some a64,
           path := some ("followed output 1 of " ++ a64) })]

/-- A chain whose single entry's `from` field references an id outside
the chain's key set. -/
def chainDangling : Chain :=
  [(b64, { data := tx_b, source_txid := some a64, path := some "loaded" })]

theorem keyCount_cons (k2 : String) (v : VisitedEntry) (rest : Chain) (k : String) :
    keyCount ((k2, v) :: rest) k = (if k2 = k then 1 else 0) + keyCount rest k := by
  by_cases h : k2 = k
  · simp [keyCount, List.filter_cons, h]
    omega
  · simp [keyCount, List.filter_cons, h]

theorem keyCount_eq_zero_of_not_mem (rest : Chain) (k : String)
    (h : k ∉ rest.map Prod.fst) : keyCount rest k = 0 := by
  induction rest with
  | nil => rfl
  | cons p r ih =>
    obtain ⟨k2, v2⟩ := p
    simp only [List.map_cons, List.mem_cons] at h
    push_neg at h
    rw [keyCount_cons, if_neg (fun e => h.1 e.symm), ih h.2]

theorem chainGet_dictInsert_self (m : Chain) (k : String) (v : VisitedEntry) :
    chainGet (dictInsert m k v) k = some v := by
  induction m with
  | nil => simp [dictInsert, chainGet]
  | cons p rest ih =>
    obtain ⟨k2, v2⟩ := p
    by_cases h : k2 = k
    · simp [dictInsert, chainGet, h]
    · simp [dictInsert, chainGet, h, ih]

theorem chainGet_dictInsert_ne (m : Chain) (k k2 : String) (v : VisitedEntry)
    (h : k2 ≠ k) : chainGet (dictInsert m k v) k2 = chainGet m k2 := by
  induction m with
  | nil => simp [dictInsert, chainGet, Ne.symm h]
  | cons p rest ih =>
    obtain ⟨k3, v3⟩ := p
    by_cases h3 : k3 = k
    · subst h3
      simp [dictInsert, chainGet, Ne.symm h]
    · by_cases h2 : k3 = k2
      · simp [dictInsert, chainGet, h3, h2, h]
      · simp [dictInsert, chainGet, h3, h2, ih]

theorem dictInsert_length_of_get_none (m : Chain) (k : String) (v : VisitedEntry)
    (h : chainGet m k = none) : (dictInsert m k v).length = m.length + 1 := by
  induction m with
  | nil => simp [dictInsert]
  | cons p rest ih =>
    obtain ⟨k2, v2⟩ := p
    by_cases hk : k2 = k
    · simp [chainGet, hk] at h
    · simp only [chainGet, if_neg hk] at h
      simp [dictInsert, hk, ih h]

theorem dictInsert_length_of_get_some (m : Chain) (k : String) (v w : VisitedEntry)
    (h : chainGet m k = some w) : (dictInsert m k v).length = m.length := by
  induction m with
  | nil => simp [chainGet] at h
  | cons p rest ih =>
    obtain ⟨k2, v2⟩ := p
    by_cases hk : k2 = k
    · simp [dictInsert, hk]
    · simp only [chainGet, if_neg hk] at h
      simp [dictInsert, hk, ih h]

theorem mem_keys_dictInsert (m : Chain) (k x : String) (v : VisitedEntry) :
    x ∈ (dictInsert m k v).map Prod.fst ↔ x ∈ m.map Prod.fst ∨ x = k := by
  induction m with
  | nil => simp [dictInsert]
  | cons p rest ih =>
    obtain ⟨k2, v2⟩ := p
    by_cases hk : k2 = k
    · subst hk
      simp [dictInsert]
      tauto
    · simp [dictInsert, hk, ih]
      tauto

theorem nodup_keys_dictInsert (m : Chain) (k : String) (v : VisitedEntry)
    (h : (m.map Prod.fst).Nodup) : ((dictInsert m k v).map Prod.fst).Nodup := by
  induction m with
  | nil => simp [dictInsert]
  | cons p rest ih =>
    obtain ⟨k2, v2⟩ := p
    simp only [List.map_cons, List.nodup_cons] at h
    by_cases hk : k2 = k
    · subst hk
      simpa [dictInsert] using h
    · have e : dictInsert ((k2, v2) :: rest) k v = (k2, v2) :: dictInsert rest k v := by
        simp [dictInsert, hk]
      rw [e, List.map_cons, List.nodup_cons]
      refine ⟨?_, ih h.2⟩
      intro hmem
      rcases (mem_keys_dictInsert rest k k2 v).mp hmem with h1 | h1
      · exact h.1 h1
      · exact hk h1

theorem keyCount_dictInsert_self (m : Chain) (k : String) (v : VisitedEntry)
    (h : (m.map Prod.fst).Nodup) : keyCount (dictInsert m k v) k = 1 := by
  induction m with
  | nil => simp [dictInsert, keyCount, List.filter_cons]
  | cons p rest ih =>
    obtain ⟨k2, v2⟩ := p
    simp only [List.map_cons, List.nodup_cons] at h
    by_cases hk : k2 = k
    · subst hk
      have e : dictInsert ((k2, v2) :: rest) k2 v = (k2, v) :: rest := by
        simp [dictInsert]
      rw [e, keyCount_cons, if_pos rfl, keyCount_eq_zero_of_not_mem rest k2 h.1]
    · have e : dictInsert ((k2, v2) :: rest) k v = (k2, v2) :: dictInsert rest k v := by
        simp [dictInsert, hk]
      rw [e, keyCount_cons, if_neg hk, ih h.2]

theorem decode_num_natCast (t : Nat) :
    (if ((t : Int)) < 0 then none else some ((t : Int)).toNat) = some t := by
  rw [if_neg (by omega)]
  simp

theorem decodeStatus_encodeStatus (st : TxStatus) :
    decodeStatus (encodeStatus st) = some st := by
  obtain ⟨c, bt⟩ := st
  cases bt with
  | none => simp [decodeStatus, encodeStatus, lookupKey]
  | some t => simp [decodeStatus, encodeStatus, lookupKey]

theorem decodeInput_encodeInput (i : TxInput) :
    decodeInput (encodeInput i) = some i := by
  obtain ⟨t, v⟩ := i
  cases t <;> cases v <;> simp [decodeInput, encodeInput, lookupKey]

theorem decodeOutput_encodeOutput (o : TxOutput) :
    decodeOutput (encodeOutput o) = some o := by
  obtain ⟨v, a⟩ := o
  cases a <;> simp [decodeOutput, encodeOutput, lookupKey]

theorem decodeInputs_map_encodeInput (l : List TxInput) :
    decodeInputs (l.map encodeInput) = some l := by
  induction l with
  | nil => rfl
  | cons i rest ih => simp [decodeInputs, decodeInput_encodeInput, ih]

theorem decodeOutputs_map_encodeOutput (l : List TxOutput) :
    decodeOutputs (l.map encodeOutput) = some l := by
  induction l with
  | nil => rfl
  | cons o rest ih => simp [decodeOutputs, decodeOutput_encodeOutput, ih]

theorem decodeTx_encodeTx (d : TxData) :
    decodeTx (encodeTx d) = some d := by
  obtain ⟨t, st, vin, vout⟩ := d
  simp [decodeTx, encodeTx, lookupKey, decodeStatus_encodeStatus,
    decodeInputs_map_encodeInput, decodeOutputs_map_encodeOutput]

theorem decodeEntry_encodeEntry (e : VisitedEntry) :
    decodeEntry (encodeEntry e) = some e := by
  obtain ⟨d, f, p⟩ := e
  cases f <;> cases p <;>
    simp [decodeEntry, encodeEntry, lookupKey, encodeOptStr, decodeTx_encodeTx]

theorem decodeEntries_map_encodeEntry (g : Chain) :
    decodeEntries (g.map (fun p => (p.1, encodeEntry p.2))) = some g := by
  induction g with
  | nil => rfl
  | cons p rest ih => simp [decodeEntries, decodeEntry_encodeEntry, ih]

theorem decodeChain_dump_chain (g : Chain) :
    decodeChain (dump_chain g) = some g := by
  simp [decodeChain, dump_chain, decodeEntries_map_encodeEntry]

/-- Claim C7: for every transaction with a non-empty input list,
`follow_input_by_index` at index `-1` and at index `len(vin)` reports an
invalid index, performs no ledger fetch, and leaves the chain
unchanged. -/
theorem follow_input_index_out_of_range (L : Ledger) (g : Chain) (tx : TxData)
    (h : tx.vin ≠ []) :
    follow_input_by_index L g tx (-1) =
      { outcome := NavOutcome.invalidIndex, chain := g, txFetches := [] } ∧
    follow_input_by_index L g tx (tx.vin.length : Int) =
      { outcome := NavOutcome.invalidIndex, chain := g, txFetches := [] } := by
  refine ⟨?_, ?_⟩ <;> simp only [follow_input_by_index]
  · rw [if_pos (Or.inl (by norm_num))]
  · rw [if_pos (Or.inr (le_refl _))]

theorem follow_input_index_out_of_range_witness :
    follow_input_by_index nullLedger [] tx_a (-1) =
      { outcome := NavOutcome.invalidIndex, chain := [], txFetches := [] } ∧
    follow_input_by_index nullLedger [] tx_a (tx_a.vin.length : Int) =
      { outcome := NavOutcome.invalidIndex, chain := [], txFetches := [] } :=
  follow_input_index_out_of_range nullLedger [] tx_a (by decide)

/-- Claim C8: a query string rejected by the transaction-id format check
is turned away before any ledger fetch, with the chain unchanged. -/
theorem handle_transaction_input_rejects_malformed (L : Ledger) (g : Chain)
    (s : String) (h : is_transaction_id s = false) :
    handle_transaction_input L g s =
      { outcome := QueryOutcome.invalidFormat, chain := g, txFetches := [] } := by
  simp [handle_transaction_input, h]

theorem handle_transaction_input_rejects_malformed_witness :
    handle_transaction_input nullLedger [] "zz123" =
      { outcome := QueryOutcome.invalidFormat, chain := [], txFetches := [] } :=
  handle_transaction_input_rejects_malformed nullLedger [] "zz123" (by decide)

/-- Claim C10: the transaction-id format check accepts every string of
exactly 64 hexadecimal characters, and also accepts the 65-character
string made of 64 hex characters followed by a trailing newline, so
acceptance is not equivalent to being exactly 64 hex characters. -/
theorem is_transaction_id_hex64_or_trailing_newline :
    (∀ s : String, s.data.length = 64 → s.data.all isHexChar = true →
      is_transaction_id s = true) ∧
    is_transaction_id (String.mk (List.replicate 64 'a' ++ [Char.ofNat 10])) = true ∧
    (String.mk (List.replicate 64 'a' ++ [Char.ofNat 10])).data.length = 65 := by
  refine ⟨?_, by decide, by decide⟩
  intro s h1 h2
  simp [is_transaction_id, h1, h2]

theorem is_transaction_id_hex64_or_trailing_newline_witness :
    is_transaction_id a64 = true :=
  is_transaction_id_hex64_or_trailing_newline.1 a64 (by decide) (by decide)

/-- Claim C2 (code bug): on a transaction whose input list is empty the
index guard `idx < 0 or idx >= len(vin)` always fires first, so the
dedicated no-inputs branch is unreachable and the step reports a plain
invalid index instead of the distinguished no-inputs outcome (no fetch is
attempted either way). -/
theorem follow_input_empty_vin_yields_invalidIndex :
    follow_input_by_index nullLedger [] tx_noinputs 0 =
      { outcome := NavOutcome.invalidIndex, chain := [], txFetches := [] } ∧
    NavOutcome.invalidIndex ≠ NavOutcome.noInputs := by
  exact ⟨by decide, by decide⟩

/-- Claim C3: a load that fails because the file is missing or because
its content does not parse leaves the in-memory graph exactly as it
was. -/
theorem load_chain_failure_preserves_graph (G : Chain)
    (fs : String → Option (Option Json)) (filename : String) :
    (fs filename = none →
      load_chain fs (dump_chain G) filename = (LoadOutcome.notFound, dump_chain G)) ∧
    (fs filename = some none →
      load_chain fs (dump_chain G) filename = (LoadOutcome.decodeFailed, dump_chain G)) := by
  constructor <;> intro h <;> simp [load_chain, h]

theorem load_chain_failure_preserves_graph_witness :
    load_chain (fun _ => none) (dump_chain chainW) "missing.json" =
      (LoadOutcome.notFound, dump_chain chainW) ∧
    load_chain (fun _ => some none) (dump_chain chainW) "garbage.json" =
      (LoadOutcome.decodeFailed, dump_chain chainW) :=
  ⟨(load_chain_failure_preserves_graph chainW (fun _ => none) "missing.json").1 rfl,
   (load_chain_failure_preserves_graph chainW (fun _ => some none) "garbage.json").2 rfl⟩

/-- Claim C4: loading the file produced by dumping a graph succeeds and
yields back exactly the dumped entry list — same ids, records, from-links
and provenance strings, in the persisted order. -/
theorem dump_load_roundtrip (G : Chain) (fs : String → Option (Option Json))
    (cur : Json) (filename : String)
    (h : fs filename = some (some (dump_chain G))) :
    load_chain fs cur filename = (LoadOutcome.ok, dump_chain G) ∧
    decodeChain (dump_chain G) = some G :=
  ⟨by simp [load_chain, h], decodeChain_dump_chain G⟩

theorem dump_load_roundtrip_witness :
    load_chain (fun n => if n = "dump.json" then some (some (dump_chain chainW)) else none)
      (dump_chain []) "dump.json" = (LoadOutcome.ok, dump_chain chainW) ∧
    decodeChain (dump_chain chainW) = some chainW :=
  dump_load_roundtrip chainW
    (fun n => if n = "dump.json" then some (some (dump_chain chainW)) else none)
    (dump_chain []) "dump.json" (by simp)

/-- Claim C1 (counterexample): an outspend entry that reports the output
unspent as a non-null object (`spent = false`, no spending id) is routed
to the spent branch and triggers a spending-transaction fetch with a
missing id, and an absent entry (outspend list shorter than the output
list) raises an uncaught index error — neither yields the unspent
outcome the claim promises. -/
theorem follow_output_unspent_claim_counterexample :
    follow_output_by_index ledgerUnspentObj [] tx_a 0 =
      { outcome := NavOutcome.fetchFailed, chain := [], txFetches := [none] } ∧
    follow_output_by_index ledgerUnspentObj [] tx_a 1 =
      { outcome := NavOutcome.indexError, chain := [], txFetches := [] } ∧
    NavOutcome.fetchFailed ≠ NavOutcome.unspent ∧
    NavOutcome.indexError ≠ NavOutcome.unspent :=
  ⟨by decide, by decide, by decide, by decide⟩

/-- Claim C1 (amended): when the outspend entry at an in-range output
index is the null entry, `follow_output_by_index` signals the unspent
outcome, leaves the chain unchanged, and fetches no spending
transaction. -/
theorem follow_output_null_outspend_unspent (L : Ledger) (g : Chain)
    (tx : TxData) (i : Nat) (l : List (Option Outspend))
    (hi : i < tx.vout.length)
    (hl : L.outspends tx.txid = some l)
    (hnull : l.get? i = some none) :
    follow_output_by_index L g tx (i : Int) =
      { outcome := NavOutcome.unspent, chain := g, txFetches := [] } := by
  have hne : tx.vout ≠ [] := by
    intro h
    rw [h] at hi
    simp at hi
  have hempty : tx.vout.isEmpty = false := by
    simp [List.isEmpty_iff, hne]
  simp only [follow_output_by_index]
  rw [List.get?_eq_getElem?] at hnull
  rw [if_neg (by omega), hempty, if_neg (by simp), hl, Int.toNat_natCast]
  simp [hnull]

theorem follow_output_null_outspend_unspent_witness :
    follow_output_by_index ledgerNullOutspend [] tx_a 0 =
      { outcome := NavOutcome.unspent, chain := [], txFetches := [] } :=
  follow_output_null_outspend_unspent ledgerNullOutspend [] tx_a 0 [none]
    (by decide) rfl rfl

/-- Claim C5: following a valid input whose previous-transaction
reference resolves successfully records the fetched transaction under its
own id with `from` equal to the source transaction's id and a provenance
string naming the (1-based) input index and the source id, leaves every
other key untouched, grows the chain by exactly one entry when the id is
new, and yields the fetched transaction as the new current
transaction. -/
theorem follow_input_success_records_previous (L : Ledger) (g : Chain)
    (tx : TxData) (i : Nat) (inp : TxInput) (prev_id : String) (p : TxData)
    (hi : tx.vin.get? i = some inp)
    (hprev : inp.txid = some prev_id)
    (hfetch : L.tx (some prev_id) = some p) :
    (follow_input_by_index L g tx (i : Int)).outcome = NavOutcome.followed p ∧
    chainGet (follow_input_by_index L g tx (i : Int)).chain p.txid =
      some { data := p, source_txid := some tx.txid,
             path := some ("followed input " ++ toString ((i : Int) + 1) ++ " of " ++ tx.txid) } ∧
    (∀ k : String, k ≠ p.txid →
      chainGet (follow_input_by_index L g tx (i : Int)).chain k = chainGet g k) ∧
    (chainGet g p.txid = none →
      (follow_input_by_index L g tx (i : Int)).chain.length = g.length + 1) ∧
    (follow_input_by_index L g tx (i : Int)).txFetches = [some prev_id] := by
  have hlen : i < tx.vin.length := by
    by_contra hc
    rw [List.get?_eq_none.mpr (by omega)] at hi
    exact Option.noConfusion hi
  have hne : tx.vin ≠ [] := by
    intro h
    rw [h] at hlen
    simp at hlen
  have hempty : tx.vin.isEmpty = false := by
    simp [List.isEmpty_iff, hne]
  have heval : follow_input_by_index L g tx (i : Int) =
      { outcome := NavOutcome.followed p,
        chain := add_to_chain g p
          (some ("followed input " ++ toString ((i : Int) + 1) ++ " of " ++ tx.txid))
          (some tx.txid),
        txFetches := [some prev_id] } := by
    simp only [follow_input_by_index]
    rw [if_neg (by omega), hempty, if_neg (by simp), Int.toNat_natCast, hi]
    simp [hprev, hfetch]
  rw [heval]
  refine ⟨rfl, ?_, ?_, ?_, rfl⟩
  · exact chainGet_dictInsert_self g p.txid _
  · intro k hk
    exact chainGet_dictInsert_ne g p.txid k _ hk
  · intro hnew
    exact dictInsert_length_of_get_none g p.txid _ hnew

theorem follow_input_success_records_previous_witness :
    (follow_input_by_index ledgerPrev [] tx_c 0).outcome = NavOutcome.followed tx_b ∧
    chainGet (follow_input_by_index ledgerPrev [] tx_c 0).chain tx_b.txid =
      some { data := tx_b, source_txid := some tx_c.txid,
             path := some ("followed input " ++ toString ((0 : Int) + 1) ++ " of " ++ tx_c.txid) } ∧
    chainGet (follow_input_by_index ledgerPrev [] tx_c 0).chain "elsewhere" =
      chainGet [] "elsewhere" ∧
    (follow_input_by_index ledgerPrev [] tx_c 0).chain.length = 0 + 1 ∧
    (follow_input_by_index ledgerPrev [] tx_c 0).txFetches = [some b64] := by
  have h := follow_input_success_records_previous ledgerPrev [] tx_c 0
    { txid := some b64, vout := some 0 } b64 tx_b rfl rfl (by decide)
  exact ⟨h.1, h.2.1, h.2.2.1 "elsewhere" (by decide), h.2.2.2.1 rfl, h.2.2.2.2⟩

/-- Claim C6: recording a transaction whose id is already present
overwrites the existing entry in place instead of duplicating it — after
the second record the chain holds exactly one entry under that id, that
entry carries the later call's fields, and the chain's size does not
grow. -/
theorem add_to_chain_overwrites_same_id (g : Chain) (d1 d2 : TxData)
    (p1 p2 f1 f2 : Option String)
    (hnodup : (g.map Prod.fst).Nodup) (hid : d2.txid = d1.txid) :
    keyCount (add_to_chain (add_to_chain g d1 p1 f1) d2 p2 f2) d1.txid = 1 ∧
    chainGet (add_to_chain (add_to_chain g d1 p1 f1) d2 p2 f2) d1.txid =
      some { data := d2, source_txid := f2, path := p2 } ∧
    (add_to_chain (add_to_chain g d1 p1 f1) d2 p2 f2).length =
      (add_to_chain g d1 p1 f1).length := by
  have h1 : ((add_to_chain g d1 p1 f1).map Prod.fst).Nodup :=
    nodup_keys_dictInsert g d1.txid _ hnodup
  unfold add_to_chain
  rw [hid]
  refine ⟨keyCount_dictInsert_self _ _ _ ?_, chainGet_dictInsert_self _ _ _,
    dictInsert_length_of_get_some _ _ _ _ (chainGet_dictInsert_self _ _ _)⟩
  simpa [add_to_chain] using h1

theorem add_to_chain_overwrites_same_id_witness :
    keyCount (add_to_chain (add_to_chain [] tx_b (some "first visit") none)
      tx_b2 (some "second visit") (some a64)) tx_b.txid = 1 ∧
    chainGet (add_to_chain (add_to_chain [] tx_b (some "first visit") none)
      tx_b2 (some "second visit") (some a64)) tx_b.txid =
      some { data := tx_b2, source_txid := some a64, path := some "second visit" } ∧
    (add_to_chain (add_to_chain [] tx_b (some "first visit") none)
      tx_b2 (some "second visit") (some a64)).length =
      (add_to_chain [] tx_b (some "first visit") none).length :=
  add_to_chain_overwrites_same_id [] tx_b tx_b2 (some "first visit")
    (some "second visit") none (some a64) (by simp) rfl

/-- The raw `from` and `path` values of an encoded entry are read back
unchanged by the post-load listing's field accesses. -/
theorem jget_encodeEntry_from (e : VisitedEntry) :
    jget (encodeEntry e) "from" = some (encodeOptStr e.source_txid) := rfl

theorem jget_encodeEntry_path (e : VisitedEntry) :
    jget (encodeEntry e) "path" = some (encodeOptStr e.path) := rfl

theorem chain_listing_dump (g : Chain) :
    chain_listing (dump_chain g) =
      some (g.map (fun p =>
        (p.1, some (encodeOptStr p.2.source_txid), some (encodeOptStr p.2.path)))) := by
  simp [chain_listing, dump_chain, jget_encodeEntry_from, jget_encodeEntry_path]

/-- Claim C9: loading a persisted graph holding a `from` reference to an
id outside the loaded key set succeeds without any validation, keeps the
dangling reference as stored, and the post-load listing displays it
as-is. -/
theorem load_preserves_dangling_from (G : Chain)
    (fs : String → Option (Option Json)) (cur : Json) (filename : String)
    (k x : String) (e : VisitedEntry)
    (hfs : fs filename = some (some (dump_chain G)))
    (hmem : (k, e) ∈ G) (hfrom : e.source_txid = some x)
    (hdangling : x ∉ G.map Prod.fst) :
    load_chain fs cur filename = (LoadOutcome.ok, dump_chain G) ∧
    chain_listing (dump_chain G) =
      some (G.map (fun p =>
        (p.1, some (encodeOptStr p.2.source_txid), some (encodeOptStr p.2.path)))) ∧
    (k, some (Json.str x), some (encodeOptStr e.path)) ∈
      G.map (fun p =>
        (p.1, some (encodeOptStr p.2.source_txid), some (encodeOptStr p.2.path))) := by
  refine ⟨by simp [load_chain, hfs], chain_listing_dump G, ?_⟩
  have h := List.mem_map_of_mem
    (fun p : String × VisitedEntry =>
      (p.1, some (encodeOptStr p.2.source_txid), some (encodeOptStr p.2.path))) hmem
  simpa [hfrom, encodeOptStr] using h

theorem load_preserves_dangling_from_witness :
    load_chain (fun _ => some (some (dump_chain chainDangling))) Json.null "d.json" =
      (LoadOutcome.ok, dump_chain chainDangling) ∧
    chain_listing (dump_chain chainDangling) =
      some (chainDangling.map (fun p =>
        (p.1, some (encodeOptStr p.2.source_txid), some (encodeOptStr p.2.path)))) ∧
    (b64, some (Json.str a64), some (encodeOptStr (some "loaded"))) ∈
      chainDangling.map (fun p =>
        (p.1, some (encodeOptStr p.2.source_txid), some (encodeOptStr p.2.path))) :=
  load_preserves_dangling_from chainDangling
    (fun _ => some (some (dump_chain chainDangling))) Json.null "d.json"
    b64 a64 { data := tx_b, source_txid := some a64, path := some "loaded" }
    rfl (by simp [chainDangling]) rfl (by decide)

end Bitcrawler
